import Mathlib

/-!
Shallow embedding of the booking / payment-reconciliation core of the
room-booking backend (`app/services/supabase.py`, `app/agent/tools/booking.py`,
`app/api/webhooks.py`, `app/api/bookings.py`).

Modelling conventions:
* Time instants are integers (seconds); the source stores ISO-8601 strings whose
  lexicographic order agrees with chronological order, and compares them with
  the same strict/non-strict operators used here.
* Monetary values are exact rationals.  The source uses Python floats; every
  concrete value appearing in a theorem below is a dyadic rational, on which
  IEEE-754 double arithmetic is exact, so the rational model and the float code
  agree at those points.
* The persistence layer (Supabase) is modelled as explicit state (`DB`) threaded
  through each operation; queries become pure functions on that state.
* External-provider calls (Stripe) and their failure modes (exceptions,
  timeouts) are inputs to the functions that make them: an `Option` result with
  `none` standing for "the call raised / timed out".
* Booking and payment statuses are the literal strings the source uses.
-/

/-- A row of the `spaces` table (the fields the booking core reads). -/
structure Space where
  id : String
  name : String
  hourly_rate : Option ℚ
  daily_rate : Option ℚ
  monthly_rate : Option ℚ
  is_active : Bool
deriving DecidableEq, Repr

/-- A row of the `bookings` table. -/
structure Booking where
  id : String
  user_id : String
  space_id : String
  start_time : ℤ
  end_time : ℤ
  duration_type : String
  status : String
  total_amount : ℚ
  attendees_count : ℤ
deriving DecidableEq, Repr

/-- A row of the `payments` table. -/
structure Payment where
  user_id : String
  booking_id : String
  amount : ℚ
  currency : String
  payment_status : String
  payment_provider : String
  transaction_id : Option String
  paid_at : Option ℤ
  receipt_url : Option String
deriving DecidableEq, Repr

/-- The database state the booking core reads and writes. -/
structure DB where
  bookings : List Booking
  payments : List Payment
deriving DecidableEq, Repr

/-- Python truthiness of `space.get("..._rate")`: `None` and `0`/`0.0` are falsy. -/
def truthyRate : Option ℚ → Bool
  | none => false
  | some x => x != 0

/-- `SupabaseService.check_space_availability`: selects bookings of the space with
`status ≠ cancelled`, `start_time < end_time_param` and `end_time > start_time_param`,
and reports availability iff the result set is empty. -/
def check_space_availability (db : DB) (space_id : String)
    (start_time end_time : ℤ) : Bool :=
  (db.bookings.filter (fun b =>
      b.space_id == space_id && b.status != "cancelled" &&
      decide (b.start_time < end_time) && decide (b.end_time > start_time))).length == 0

/-- `SupabaseService.update_booking_status`: `update({"status": status}).eq("id", booking_id)` —
sets the status of every row whose id matches, with no condition on the current status. -/
def update_booking_status (db : DB) (booking_id status : String) : DB :=
  { db with bookings := db.bookings.map (fun b =>
      if b.id == booking_id then { b with status := status } else b) }

/-- `SupabaseService.create_booking`: inserts a new row with `status = "pending"`.
The id the database generates is passed in as `new_id`. -/
def create_booking_row (db : DB) (new_id user_id space_id : String)
    (start_time end_time : ℤ) (duration_type : String) (total_amount : ℚ)
    (attendees_count : ℤ) : DB :=
  { db with bookings := db.bookings ++
      [{ id := new_id, user_id := user_id, space_id := space_id,
         start_time := start_time, end_time := end_time,
         duration_type := duration_type, status := "pending",
         total_amount := total_amount, attendees_count := attendees_count }] }

/-- `SupabaseService.create_payment_record`: inserts a payment row with currency `MYR`. -/
def create_payment_record (db : DB) (user_id booking_id : String) (amount : ℚ)
    (payment_status payment_provider : String) (transaction_id : Option String) : DB :=
  { db with payments := db.payments ++
      [{ user_id := user_id, booking_id := booking_id, amount := amount,
         currency := "MYR", payment_status := payment_status,
         payment_provider := payment_provider, transaction_id := transaction_id,
         paid_at := none, receipt_url := none }] }

/-- `SupabaseService.update_payment_status`: updates every payment row of the booking;
optional fields are written only when provided (Python truthiness of the arguments). -/
def update_payment_status (db : DB) (booking_id : String) (payment_status : String)
    (transaction_id : Option String) (paid_at : Option ℤ)
    (receipt_url : Option String) : DB :=
  { db with payments := db.payments.map (fun p =>
      if p.booking_id == booking_id then
        { p with
          payment_status := payment_status,
          transaction_id := if transaction_id.isSome then transaction_id else p.transaction_id,
          paid_at := if paid_at.isSome then paid_at else p.paid_at,
          receipt_url := if receipt_url.isSome then receipt_url else p.receipt_url }
      else p) }

/-- `SupabaseService.get_payment_by_booking`: first payment row of the booking, if any. -/
def get_payment_by_booking (db : DB) (booking_id : String) : Option Payment :=
  (db.payments.filter (fun p => p.booking_id == booking_id)).head?

/-- Blocking predicate of the availability query: what a booking row must satisfy
to appear in the `check_space_availability` result set. -/
def blocks (space_id : String) (start_time end_time : ℤ) (b : Booking) : Prop :=
  b.space_id = space_id ∧ b.status ≠ "cancelled" ∧
  b.start_time < end_time ∧ start_time < b.end_time

instance (space_id : String) (s e : ℤ) (b : Booking) : Decidable (blocks space_id s e b) := by
  unfold blocks; infer_instance

/-- Claim C2: `check_space_availability` returns true iff no booking of the space
with status ≠ cancelled has an interval `[s1, e1)` with `s1 < end ∧ start < e1`;
in particular a booking ending exactly at the requested start, or starting exactly
at the requested end, never blocks availability. -/
theorem C2_availability_strict_overlap (db : DB) (sid : String) (s e : ℤ) :
    (check_space_availability db sid s e = true ↔
      ∀ b ∈ db.bookings, ¬ blocks sid s e b) ∧
    (∀ b ∈ db.bookings, b.space_id = sid → b.status ≠ "cancelled" →
      (b.end_time = s ∨ b.start_time = e) → ¬ blocks sid s e b) := by
  constructor
  · unfold check_space_availability
    rw [beq_iff_eq, List.length_eq_zero, List.filter_eq_nil_iff]
    constructor
    · intro h b hb hbl
      exact h b hb (by
        obtain ⟨h1, h2, h3, h4⟩ := hbl
        simp [h1, h2, h3, h4])
    · intro h b hb hpred
      apply h b hb
      simp only [Bool.and_eq_true, beq_iff_eq, bne_iff_ne, decide_eq_true_eq] at hpred
      exact ⟨hpred.1.1.1, hpred.1.1.2, hpred.1.2, hpred.2⟩
  · intro b _ h1 h2 hends hbl
    obtain ⟨_, _, h3, h4⟩ := hbl
    rcases hends with he | hs
    · exact absurd h4 (by omega)
    · exact absurd h3 (by omega)

/-- Witness for C2 at a concrete database: one cancelled overlapping booking and one
back-to-back booking do not block, so the check returns true. -/
theorem C2_availability_strict_overlap_witness :
    check_space_availability
      { bookings := [
          { id := "b1", user_id := "u", space_id := "s1", start_time := 0,
            end_time := 100, duration_type := "hourly", status := "cancelled",
            total_amount := 10, attendees_count := 1 },
          { id := "b2", user_id := "u", space_id := "s1", start_time := 100,
            end_time := 200, duration_type := "hourly", status := "pending",
            total_amount := 10, attendees_count := 1 }],
        payments := [] } "s1" 200 300 = true ∧
    ¬ blocks "s1" 200 300
      { id := "b2", user_id := "u", space_id := "s1", start_time := 100,
        end_time := 200, duration_type := "hourly", status := "pending",
        total_amount := 10, attendees_count := 1 } := by
  constructor
  · decide
  · exact (C2_availability_strict_overlap
      { bookings := [
          { id := "b1", user_id := "u", space_id := "s1", start_time := 0,
            end_time := 100, duration_type := "hourly", status := "cancelled",
            total_amount := 10, attendees_count := 1 },
          { id := "b2", user_id := "u", space_id := "s1", start_time := 100,
            end_time := 200, duration_type := "hourly", status := "pending",
            total_amount := 10, attendees_count := 1 }],
        payments := [] } "s1" 200 300).2
      { id := "b2", user_id := "u", space_id := "s1", start_time := 100,
        end_time := 200, duration_type := "hourly", status := "pending",
        total_amount := 10, attendees_count := 1 }
      (by decide) (by decide) (by decide) (by decide)

/-- Claim C1 as amended: `update_booking_status` applies the target status to the
matching row unconditionally.  An update whose target equals every matching row's
current status leaves the database unchanged (so the idempotent no-op part of the
claim holds extensionally), rows with other ids are untouched, but there is no
transition guard: any edge, including one leaving a terminal status such as
`cancelled`, simply overwrites, and no `IllegalTransition` signal exists. -/
theorem C1_update_booking_status_unguarded (db : DB) (bid st : String) :
    ((∀ b ∈ db.bookings, b.id = bid → b.status = st) →
      update_booking_status db bid st = db) ∧
    (∀ b ∈ db.bookings, b.id = bid →
      { b with status := st } ∈ (update_booking_status db bid st).bookings) ∧
    (∀ b ∈ db.bookings, b.id ≠ bid →
      b ∈ (update_booking_status db bid st).bookings) := by
  refine ⟨?_, ?_, ?_⟩
  · intro h
    unfold update_booking_status
    have : db.bookings.map (fun b => if b.id == bid then { b with status := st } else b)
        = db.bookings.map id := by
      apply List.map_congr_left
      intro b hb
      by_cases hid : b.id = bid
      · have hst := h b hb hid
        cases b
        simp_all
      · simp [hid]
    rw [this, List.map_id]
  · intro b hb hid
    unfold update_booking_status
    have : { b with status := st } =
        (fun b => if b.id == bid then { b with status := st } else b) b := by
      simp [hid]
    rw [this]
    exact List.mem_map_of_mem _ hb
  · intro b hb hid
    unfold update_booking_status
    have : b = (fun b => if b.id == bid then { b with status := st } else b) b := by
      simp [hid]
    rw [this]
    exact List.mem_map_of_mem _ hb

/-- Witness for C1 at a concrete database: a same-status update is a no-op, and the
overwrite and untouched-row parts hold for the two rows. -/
theorem C1_update_booking_status_unguarded_witness :
    update_booking_status
      { bookings := [
          { id := "b1", user_id := "u", space_id := "s1", start_time := 0,
            end_time := 100, duration_type := "hourly", status := "pending",
            total_amount := 10, attendees_count := 1 }],
        payments := [] } "b1" "pending"
    = { bookings := [
          { id := "b1", user_id := "u", space_id := "s1", start_time := 0,
            end_time := 100, duration_type := "hourly", status := "pending",
            total_amount := 10, attendees_count := 1 }],
        payments := [] } :=
  (C1_update_booking_status_unguarded
    { bookings := [
        { id := "b1", user_id := "u", space_id := "s1", start_time := 0,
          end_time := 100, duration_type := "hourly", status := "pending",
          total_amount := 10, attendees_count := 1 }],
      payments := [] } "b1" "pending").1 (by decide)

/-- Counterexample to claim C1 as stated: the status update blindly overwrites a
terminal state.  On a database holding a single `cancelled` booking, updating its
status to `confirmed` succeeds and changes the stored status — the edge
`cancelled → confirmed` is neither rejected with `IllegalTransition` nor a no-op. -/
theorem C1_terminal_state_overwritten :
    (update_booking_status
      { bookings := [
          { id := "b1", user_id := "u", space_id := "s1", start_time := 0,
            end_time := 100, duration_type := "hourly", status := "cancelled",
            total_amount := 10, attendees_count := 1 }],
        payments := [] } "b1" "confirmed").bookings.map Booking.status
      = ["confirmed"] ∧
    ({ bookings := [
          { id := "b1", user_id := "u", space_id := "s1", start_time := 0,
            end_time := 100, duration_type := "hourly", status := "cancelled",
            total_amount := 10, attendees_count := 1 }],
       payments := [] } : DB).bookings.map Booking.status = ["cancelled"] := by
  decide

/-- Duration in hours, `(end_datetime - start_datetime).total_seconds() / 3600`
(booking.py line 156), with instants in seconds. -/
def duration_hours (start_time end_time : ℤ) : ℚ :=
  ((end_time - start_time : ℤ) : ℚ) / 3600

/-- Pricing branch of `create_booking` (booking.py lines 158-175): requested mode first
when its rate is truthy, otherwise the default fallback hourly-then-daily; `none`
models the "Could not determine pricing" rejection. -/
def compute_total_amount (space : Space) (dur : ℚ) (duration_type : String) : Option ℚ :=
  if duration_type == "hourly" && truthyRate space.hourly_rate then
    some (space.hourly_rate.getD 0 * dur)
  else if duration_type == "daily" && truthyRate space.daily_rate then
    some (space.daily_rate.getD 0)
  else if duration_type == "monthly" && truthyRate space.monthly_rate then
    some (space.monthly_rate.getD 0)
  else if truthyRate space.hourly_rate then
    some (space.hourly_rate.getD 0 * dur)
  else if truthyRate space.daily_rate then
    some (space.daily_rate.getD 0)
  else
    none

/-- The hourly-then-daily default branch of the pricing code (booking.py lines 164-175). -/
def hourly_daily_fallback (space : Space) (dur : ℚ) : Option ℚ :=
  if truthyRate space.hourly_rate then some (space.hourly_rate.getD 0 * dur)
  else if truthyRate space.daily_rate then some (space.daily_rate.getD 0)
  else none

/-- Python 3 `round` to an integer: nearest integer, ties to even (banker's rounding). -/
def pyRound (q : ℚ) : ℤ :=
  let f := ⌊q⌋
  let r := q - f
  if r < 1/2 then f
  else if 1/2 < r then f + 1
  else if f % 2 = 0 then f else f + 1

/-- `int(round(total_amount * 100))` from `_create_payment_link_sync` (booking.py line 209). -/
def amount_cents (total_amount : ℚ) : ℤ :=
  pyRound (total_amount * 100)

/-- Python `round` at an exact half: ties go to the even neighbour, not upward. -/
theorem pyRound_tie (n : ℤ) :
    pyRound ((n:ℚ) + 1/2) = if n % 2 = 0 then n else n + 1 := by
  unfold pyRound
  have hf : ⌊(n:ℚ) + 1/2⌋ = n := by
    rw [add_comm, Int.floor_add_int]
    norm_num [Int.floor_eq_iff]
  simp only [hf]
  have hr : (n:ℚ) + 1/2 - (n:ℤ) = 1/2 := by ring
  simp only [hr]
  norm_num

/-- Claim C4 as amended: the stored total amount is the exact, unrounded
`rate × duration` product (no two-decimal rounding is applied to it), and the
minor-unit conversion `int(round(total * 100))` rounds to the nearest cent with
ties to even (Python banker's rounding), not half-up: a raw total ending in half
a cent rounds to the even neighbouring cent, dropping the half cent whenever the
lower cent is even. -/
theorem C4_no_fixed_point_rounding (space : Space) (dur : ℚ) (n : ℤ)
    (h : truthyRate space.hourly_rate = true) :
    compute_total_amount space dur "hourly" = some (space.hourly_rate.getD 0 * dur) ∧
    amount_cents ((n:ℚ)/100 + 1/200) = (if n % 2 = 0 then n else n + 1) := by
  constructor
  · simp [compute_total_amount, h]
  · unfold amount_cents
    have : ((n:ℚ)/100 + 1/200) * 100 = (n:ℚ) + 1/2 := by ring
    rw [this, pyRound_tie]

/-- Witness for C4: a space with hourly rate RM40.50 and the tie at 1012.5 cents. -/
theorem C4_no_fixed_point_rounding_witness :
    compute_total_amount
      { id := "s1", name := "Desk", hourly_rate := some (81/2), daily_rate := none,
        monthly_rate := none, is_active := true } (1/4) "hourly"
      = some ((81:ℚ)/2 * (1/4)) ∧
    amount_cents (((1012:ℤ):ℚ)/100 + 1/200) = (if (1012:ℤ) % 2 = 0 then 1012 else 1012 + 1) :=
  C4_no_fixed_point_rounding
    { id := "s1", name := "Desk", hourly_rate := some (81/2), daily_rate := none,
      monthly_rate := none, is_active := true } (1/4) 1012 (by simp [truthyRate])

/-- Counterexample to claim C4 as stated: book a space with hourly rate RM40.50 for
15 minutes (900 seconds).  The computed total is exactly RM10.125 — not a value
rounded to two decimals — and its cent conversion is 1012, not the half-up 1013,
so the half cent is silently dropped.  All values here are dyadic rationals, on
which the float arithmetic of the source is exact. -/
theorem C4_half_cent_dropped :
    compute_total_amount
      { id := "s1", name := "Desk", hourly_rate := some (81/2), daily_rate := none,
        monthly_rate := none, is_active := true } (duration_hours 0 900) "hourly"
      = some ((81:ℚ)/8) ∧
    (¬ ∃ k : ℤ, (81:ℚ)/8 = (k:ℚ)/100) ∧
    amount_cents ((81:ℚ)/8) = 1012 ∧ (1012 : ℤ) ≠ 1013 := by
  refine ⟨?_, ?_, ?_, by omega⟩
  · have ht : truthyRate (some ((81:ℚ)/2)) = true := by simp [truthyRate]
    simp only [compute_total_amount, truthyRate, duration_hours]
    norm_num
  · rintro ⟨k, hk⟩
    have h2 : ((8100:ℤ):ℚ) = ((k * 8 : ℤ):ℚ) := by push_cast; field_simp at hk; linarith
    have h3 : (8100:ℤ) = k * 8 := by exact_mod_cast h2
    omega
  · unfold amount_cents
    have : ((81:ℚ)/8) * 100 = ((1012:ℤ):ℚ) + 1/2 := by norm_num
    rw [this, pyRound_tie]
    norm_num

/-- Claim C5 as amended: the pricing branch treats an absent rate and a zero rate
alike (Python truthiness), so hourly mode yields `hourlyRate × exact fractional
duration` exactly when the hourly rate is present and nonzero, daily and monthly
modes yield their flat rate exactly when that rate is present and nonzero, and in
every falsy-rate case the code falls back in order — hourly rate × duration when
the hourly rate is truthy, else the flat daily rate when truthy, else an
unpriceable-request rejection (`none`) with no booking created. -/
theorem C5_pricing_fallback_order (space : Space) (dur : ℚ) :
    (truthyRate space.hourly_rate = true →
      compute_total_amount space dur "hourly" = some (space.hourly_rate.getD 0 * dur)) ∧
    (truthyRate space.daily_rate = true →
      compute_total_amount space dur "daily" = some (space.daily_rate.getD 0)) ∧
    (truthyRate space.monthly_rate = true →
      compute_total_amount space dur "monthly" = some (space.monthly_rate.getD 0)) ∧
    (truthyRate space.hourly_rate = false →
      compute_total_amount space dur "hourly" = hourly_daily_fallback space dur) ∧
    (truthyRate space.daily_rate = false →
      compute_total_amount space dur "daily" = hourly_daily_fallback space dur) ∧
    (truthyRate space.monthly_rate = false →
      compute_total_amount space dur "monthly" = hourly_daily_fallback space dur) ∧
    (hourly_daily_fallback space dur =
      if truthyRate space.hourly_rate then some (space.hourly_rate.getD 0 * dur)
      else if truthyRate space.daily_rate then some (space.daily_rate.getD 0)
      else none) := by
  refine ⟨?_, ?_, ?_, ?_, ?_, ?_, rfl⟩
  · intro h; simp [compute_total_amount, h]
  · intro h; simp [compute_total_amount, hourly_daily_fallback, h]
  · intro h
    by_cases hh : truthyRate space.hourly_rate = true
    · simp [compute_total_amount, h, hh]
    · by_cases hd : truthyRate space.daily_rate = true
      · simp [compute_total_amount, h, hh, hd]
      · simp [compute_total_amount, h, hh, hd]
  · intro h; simp [compute_total_amount, hourly_daily_fallback, h]
  · intro h
    by_cases hh : truthyRate space.hourly_rate = true
    · simp [compute_total_amount, hourly_daily_fallback, h, hh]
    · simp [compute_total_amount, hourly_daily_fallback, h, hh]
  · intro h
    by_cases hh : truthyRate space.hourly_rate = true
    · simp [compute_total_amount, hourly_daily_fallback, h, hh]
    · by_cases hd : truthyRate space.daily_rate = true
      · simp [compute_total_amount, hourly_daily_fallback, h, hh, hd]
      · simp [compute_total_amount, hourly_daily_fallback, h, hh, hd]

/-- Witness for C5 at a concrete space with all three rates present and nonzero. -/
theorem C5_pricing_fallback_order_witness :
    compute_total_amount
      { id := "s1", name := "Desk", hourly_rate := some 40, daily_rate := some 200,
        monthly_rate := some 3000, is_active := true } 2 "hourly"
      = some (((some (40:ℚ)).getD 0) * 2) :=
  (C5_pricing_fallback_order
    { id := "s1", name := "Desk", hourly_rate := some 40, daily_rate := some 200,
      monthly_rate := some 3000, is_active := true } 2).1 (by simp [truthyRate])

/-- Counterexample to claim C5 as stated: a space whose hourly rate is present but
zero.  The claim's "hourly mode yields hourlyRate × exact fractional duration"
fails — the code treats the falsy zero rate as missing and returns the flat daily
rate RM50 instead of 0 × 2 = RM0. -/
theorem C5_zero_rate_treated_as_absent :
    compute_total_amount
      { id := "s1", name := "Desk", hourly_rate := some 0, daily_rate := some 50,
        monthly_rate := none, is_active := true } 2 "hourly" = some 50 ∧
    some (50:ℚ) ≠ some ((0:ℚ) * 2) := by
  constructor
  · simp [compute_total_amount, truthyRate, hourly_daily_fallback]
  · norm_num

/-- Validation and persistence failures `create_booking` (the agent tool) reports. -/
inductive CreateError
  | pastBooking
  | invalidInterval
  | spaceNotFound
  | slotUnavailable
  | unpriceable
deriving DecidableEq, Repr

/-- The success payload the tool returns to the caller (booking.py lines 288-318). -/
structure CreateSuccess where
  booking_id : String
  total_amount : ℚ
  status : String
  payment_link : Option String
  payment_error : Bool
deriving DecidableEq, Repr

/-- Overall result of the tool call. -/
inductive CreateResult
  | failure (e : CreateError)
  | ok (r : CreateSuccess)
deriving DecidableEq, Repr

/-- A successfully minted Stripe payment link (`_create_payment_link_sync` result). -/
structure PaymentLinkOutcome where
  link_id : String
  link_url : String
deriving DecidableEq, Repr

/-- The hard timeout, in seconds, wrapped around the payment-link call
(booking.py line 257). -/
def stripe_link_timeout_seconds : ℤ := 12

/-- The `create_booking` agent tool (booking.py lines 114-318), from the
past-date validation onward.  `space?` is the `get_space_by_id` result, `new_id`
the id the database assigns to the inserted row, `stripe_enabled` the truthiness
of `STRIPE_SECRET_KEY`, and `link_outcome` the outcome of the payment-link call:
`none` models a timeout or any provider error (the exception caught at line 284).
`payment_record_insert_ok` models whether the best-effort `create_payment_record`
insert of lines 271-282 raises: its exception is caught and only logged, so on a
failed insert the response still carries the link and no payment error. -/
def create_booking_tool (db : DB) (now : ℤ) (user_id space_id : String)
    (start_datetime end_datetime : ℤ) (duration_type : String)
    (attendees_count : ℤ) (space? : Option Space) (new_id : String)
    (stripe_enabled : Bool) (link_outcome : Option PaymentLinkOutcome)
    (payment_record_insert_ok : Bool) : DB × CreateResult :=
  if start_datetime < now then (db, .failure .pastBooking)
  else if end_datetime ≤ start_datetime then (db, .failure .invalidInterval)
  else
    match space? with
    | none => (db, .failure .spaceNotFound)
    | some space =>
      if ¬ check_space_availability db space_id start_datetime end_datetime then
        (db, .failure .slotUnavailable)
      else
        match compute_total_amount space
            (duration_hours start_datetime end_datetime) duration_type with
        | none => (db, .failure .unpriceable)
        | some total_amount =>
          let db1 := create_booking_row db new_id user_id space_id
            start_datetime end_datetime duration_type total_amount attendees_count
          if stripe_enabled then
            match link_outcome with
            | some link =>
              let db2 := if payment_record_insert_ok then
                  create_payment_record db1 user_id new_id total_amount
                    "pending" "stripe" (some link.link_id)
                else db1
              (db2, .ok { booking_id := new_id, total_amount := total_amount,
                          status := "pending", payment_link := some link.link_url,
                          payment_error := false })
            | none =>
              (db1, .ok { booking_id := new_id, total_amount := total_amount,
                          status := "pending", payment_link := none,
                          payment_error := true })
          else
            (db1, .ok { booking_id := new_id, total_amount := total_amount,
                        status := "pending", payment_link := none,
                        payment_error := false })

/-- Claim C3 as amended: the tool rejects with the past-booking error, before any
write, exactly when `start` is strictly before the call-time `now`; a `start`
equal to `now` is accepted.  Consequently the precondition for a successful
creation is `now ≤ start` (start not in the past) together with `end > start`. -/
theorem C3_past_booking_guard (db : DB) (now : ℤ) (user_id space_id : String)
    (s e : ℤ) (duration_type : String) (att : ℤ) (space? : Option Space)
    (new_id : String) (stripe_enabled : Bool)
    (link_outcome : Option PaymentLinkOutcome) (insert_ok : Bool) :
    (s < now → create_booking_tool db now user_id space_id s e duration_type att
        space? new_id stripe_enabled link_outcome insert_ok
      = (db, .failure .pastBooking)) ∧
    (∀ db' r, create_booking_tool db now user_id space_id s e duration_type att
        space? new_id stripe_enabled link_outcome insert_ok = (db', .ok r) →
      now ≤ s ∧ s < e) := by
  constructor
  · intro h
    simp [create_booking_tool, h]
  · intro db' r h
    by_cases h1 : s < now
    · simp [create_booking_tool, h1] at h
    · by_cases h2 : e ≤ s
      · simp [create_booking_tool, h1, h2] at h
      · exact ⟨by omega, by omega⟩

/-- Witness for C3: a booking whose start lies strictly in the past is rejected
with the past-booking error and the database is left untouched. -/
theorem C3_past_booking_guard_witness :
    create_booking_tool { bookings := [], payments := [] } 1000 "u" "s1" 500 4600
      "hourly" 1 none "b1" false none true
      = ({ bookings := [], payments := [] }, .failure .pastBooking) :=
  (C3_past_booking_guard { bookings := [], payments := [] } 1000 "u" "s1" 500 4600
    "hourly" 1 none "b1" false none true).1 (by decide)

/-- Counterexample to claim C3 as stated: a request whose start equals the call
time — so start is not strictly in the future — is accepted, not rejected as a
past booking: the guard is `start_datetime < now` (booking.py line 116), which a
start equal to `now` passes. -/
theorem C3_equal_start_accepted :
    (create_booking_tool { bookings := [], payments := [] } 1000 "u" "s1" 1000 4600
        "hourly" 1
        (some { id := "s1", name := "Desk", hourly_rate := some 40,
                daily_rate := none, monthly_rate := none, is_active := true })
        "b1" false none true).2
      = .ok { booking_id := "b1", total_amount := 40 * duration_hours 1000 4600,
              status := "pending", payment_link := none, payment_error := false } ∧
    (create_booking_tool { bookings := [], payments := [] } 1000 "u" "s1" 1000 4600
        "hourly" 1
        (some { id := "s1", name := "Desk", hourly_rate := some 40,
                daily_rate := none, monthly_rate := none, is_active := true })
        "b1" false none true).2
      ≠ .failure .pastBooking := by
  have ht : truthyRate (some (40:ℚ)) = true := by simp [truthyRate]
  have h : (create_booking_tool { bookings := [], payments := [] } 1000 "u" "s1"
      1000 4600 "hourly" 1
      (some { id := "s1", name := "Desk", hourly_rate := some 40,
              daily_rate := none, monthly_rate := none, is_active := true })
      "b1" false none true).2
      = .ok { booking_id := "b1", total_amount := 40 * duration_hours 1000 4600,
              status := "pending", payment_link := none, payment_error := false } := by
    simp [create_booking_tool, check_space_availability, compute_total_amount, ht]
  exact ⟨h, by rw [h]; intro hc; cases hc⟩

/-- Pricing for a billing mode that is none of hourly, daily, monthly lands in the
default hourly-then-daily fallback branch. -/
theorem compute_total_amount_unknown_mode (space : Space) (dur : ℚ) (mode : String)
    (h1 : mode ≠ "hourly") (h2 : mode ≠ "daily") (h3 : mode ≠ "monthly") :
    compute_total_amount space dur mode = hourly_daily_fallback space dur := by
  simp [compute_total_amount, hourly_daily_fallback, h1, h2, h3]

/-- Claim C6 as amended: an unknown billing mode is not rejected as a validation
error.  It is priced through the hourly-then-daily fallback, and when a usable
rate exists the booking is created and stored carrying the unknown mode; only
when neither an hourly nor a daily rate is usable does the tool reject (the
unpriceable error), and in that case nothing is written. -/
theorem C6_unknown_mode_not_rejected (db : DB) (now : ℤ) (user_id space_id : String)
    (s e : ℤ) (mode : String) (att : ℤ) (space : Space) (new_id : String)
    (h1 : mode ≠ "hourly") (h2 : mode ≠ "daily") (h3 : mode ≠ "monthly")
    (hpast : ¬ s < now) (hiv : ¬ e ≤ s)
    (havail : check_space_availability db space_id s e = true) :
    (∀ total, hourly_daily_fallback space (duration_hours s e) = some total →
      create_booking_tool db now user_id space_id s e mode att (some space)
          new_id false none true
        = (create_booking_row db new_id user_id space_id s e mode total att,
           .ok { booking_id := new_id, total_amount := total, status := "pending",
                 payment_link := none, payment_error := false })) ∧
    (hourly_daily_fallback space (duration_hours s e) = none →
      create_booking_tool db now user_id space_id s e mode att (some space)
          new_id false none true
        = (db, .failure .unpriceable)) := by
  have hcompute := compute_total_amount_unknown_mode space (duration_hours s e) mode h1 h2 h3
  constructor
  · intro total htotal
    simp [create_booking_tool, hpast, hiv, havail, hcompute, htotal]
  · intro hnone
    simp [create_booking_tool, hpast, hiv, havail, hcompute, hnone]

/-- Witness for C6: mode `weekly` on a space with an hourly rate books at the
hourly fallback price; on a space with no usable rate it is rejected unpriced. -/
theorem C6_unknown_mode_not_rejected_witness :
    create_booking_tool { bookings := [], payments := [] } 1000 "u" "s1" 2000 9200
        "weekly" 1
        (some { id := "s1", name := "Desk", hourly_rate := some 40,
                daily_rate := none, monthly_rate := none, is_active := true })
        "b1" false none true
      = (create_booking_row { bookings := [], payments := [] } "b1" "u" "s1" 2000 9200
          "weekly" (40 * duration_hours 2000 9200) 1,
         .ok { booking_id := "b1", total_amount := 40 * duration_hours 2000 9200,
               status := "pending", payment_link := none, payment_error := false }) :=
  (C6_unknown_mode_not_rejected { bookings := [], payments := [] } 1000 "u" "s1"
    2000 9200 "weekly" 1
    { id := "s1", name := "Desk", hourly_rate := some 40,
      daily_rate := none, monthly_rate := none, is_active := true } "b1"
    (by decide) (by decide) (by decide) (by decide) (by decide) (by decide)).1
    (40 * duration_hours 2000 9200) (by simp [hourly_daily_fallback, truthyRate])

/-- Counterexample to claim C6 as stated: a creation request with the unknown mode
`weekly` is not rejected and has side effects — a booking row with
`duration_type = "weekly"` is inserted, priced by the hourly fallback. -/
theorem C6_unknown_mode_creates_booking :
    (create_booking_tool { bookings := [], payments := [] } 1000 "u" "s1" 2000 9200
        "weekly" 1
        (some { id := "s1", name := "Desk", hourly_rate := some 40,
                daily_rate := none, monthly_rate := none, is_active := true })
        "b1" false none true).2
      = .ok { booking_id := "b1", total_amount := 40 * duration_hours 2000 9200,
              status := "pending", payment_link := none, payment_error := false } ∧
    ((create_booking_tool { bookings := [], payments := [] } 1000 "u" "s1" 2000 9200
        "weekly" 1
        (some { id := "s1", name := "Desk", hourly_rate := some 40,
                daily_rate := none, monthly_rate := none, is_active := true })
        "b1" false none true).1).bookings.map Booking.duration_type = ["weekly"] := by
  have ht : truthyRate (some (40:ℚ)) = true := by simp [truthyRate]
  constructor
  · simp [create_booking_tool, check_space_availability, compute_total_amount,
      hourly_daily_fallback, ht]
  · simp [create_booking_tool, check_space_availability, compute_total_amount,
      hourly_daily_fallback, ht, create_booking_row]

/-- Claim C9 as amended: when the payment-link call times out or fails with any
provider error (`link_outcome = none`), the created booking is not rolled back —
the caller gets a success payload with an explicit payment-error flag and no
payment link, the booking row is persisted with status pending, and no Payment
Record is written; the call is wrapped in a hard 12-second timeout, within the
claimed 10-15 second band.  On payment-link success, however, the pending
Payment Record insert is only attempted best-effort: when the insert succeeds
exactly one Payment Record with status pending is appended, but when it raises
the error is merely logged — no Payment Record exists, and the caller still
receives success with the payment link and no payment-error field. -/
theorem C9_payment_link_failure_no_rollback (db : DB) (now : ℤ)
    (user_id space_id : String) (s e : ℤ) (mode : String) (att : ℤ)
    (space : Space) (new_id : String) (total : ℚ)
    (hpast : ¬ s < now) (hiv : ¬ e ≤ s)
    (havail : check_space_availability db space_id s e = true)
    (hprice : compute_total_amount space (duration_hours s e) mode = some total) :
    (∀ insert_ok : Bool,
      create_booking_tool db now user_id space_id s e mode att (some space)
          new_id true none insert_ok
        = (create_booking_row db new_id user_id space_id s e mode total att,
           .ok { booking_id := new_id, total_amount := total, status := "pending",
                 payment_link := none, payment_error := true })) ∧
    ((create_booking_row db new_id user_id space_id s e mode total att).payments
      = db.payments) ∧
    ({ id := new_id, user_id := user_id, space_id := space_id, start_time := s,
       end_time := e, duration_type := mode, status := "pending",
       total_amount := total, attendees_count := att } : Booking)
      ∈ (create_booking_row db new_id user_id space_id s e mode total att).bookings ∧
    (∀ link : PaymentLinkOutcome,
      create_booking_tool db now user_id space_id s e mode att (some space)
          new_id true (some link) true
        = (create_payment_record
            (create_booking_row db new_id user_id space_id s e mode total att)
            user_id new_id total "pending" "stripe" (some link.link_id),
           .ok { booking_id := new_id, total_amount := total, status := "pending",
                 payment_link := some link.link_url, payment_error := false }) ∧
      (create_payment_record
          (create_booking_row db new_id user_id space_id s e mode total att)
          user_id new_id total "pending" "stripe" (some link.link_id)).payments
        = db.payments ++
          [{ user_id := user_id, booking_id := new_id, amount := total,
             currency := "MYR", payment_status := "pending",
             payment_provider := "stripe", transaction_id := some link.link_id,
             paid_at := none, receipt_url := none }]) ∧
    (∀ link : PaymentLinkOutcome,
      create_booking_tool db now user_id space_id s e mode att (some space)
          new_id true (some link) false
        = (create_booking_row db new_id user_id space_id s e mode total att,
           .ok { booking_id := new_id, total_amount := total, status := "pending",
                 payment_link := some link.link_url, payment_error := false })) ∧
    (10 ≤ stripe_link_timeout_seconds ∧ stripe_link_timeout_seconds ≤ 15) := by
  refine ⟨?_, rfl, ?_, ?_, ?_, by decide⟩
  · intro insert_ok
    simp [create_booking_tool, hpast, hiv, havail, hprice]
  · simp [create_booking_row]
  · intro link
    constructor
    · simp [create_booking_tool, hpast, hiv, havail, hprice]
    · simp [create_payment_record, create_booking_row]
  · intro link
    simp [create_booking_tool, hpast, hiv, havail, hprice]

/-- Witness for C9 at a concrete request: hourly space, link call failed. -/
theorem C9_payment_link_failure_no_rollback_witness :
    create_booking_tool { bookings := [], payments := [] } 1000 "u" "s1" 2000 9200
        "hourly" 1
        (some { id := "s1", name := "Desk", hourly_rate := some 40,
                daily_rate := none, monthly_rate := none, is_active := true })
        "b1" true none true
      = (create_booking_row { bookings := [], payments := [] } "b1" "u" "s1" 2000 9200
          "hourly" (40 * duration_hours 2000 9200) 1,
         .ok { booking_id := "b1", total_amount := 40 * duration_hours 2000 9200,
               status := "pending", payment_link := none, payment_error := true }) :=
  (C9_payment_link_failure_no_rollback { bookings := [], payments := [] } 1000
    "u" "s1" 2000 9200 "hourly" 1
    { id := "s1", name := "Desk", hourly_rate := some 40,
      daily_rate := none, monthly_rate := none, is_active := true } "b1"
    (40 * duration_hours 2000 9200) (by decide) (by decide) (by decide)
    (by simp [compute_total_amount, truthyRate])).1 true

/-- Counterexample to claim C9 as stated: the payment link is minted successfully
but the best-effort payment-record insert raises (its exception is caught and
only logged, booking.py lines 271-282) — the caller receives success with the
payment link and no payment-error field, yet no Payment Record with status
pending (or any other) exists, refuting "on payment-link success, exactly one
Payment Record with status pending is created". -/
theorem C9_payment_record_insert_swallowed :
    (create_booking_tool { bookings := [], payments := [] } 1000 "u" "s1" 2000 9200
        "hourly" 1
        (some { id := "s1", name := "Desk", hourly_rate := some 40,
                daily_rate := none, monthly_rate := none, is_active := true })
        "b1" true (some { link_id := "plink_1", link_url := "stripe.example/pay" })
        false).2
      = .ok { booking_id := "b1", total_amount := 40 * duration_hours 2000 9200,
              status := "pending", payment_link := some "stripe.example/pay",
              payment_error := false } ∧
    ((create_booking_tool { bookings := [], payments := [] } 1000 "u" "s1" 2000 9200
        "hourly" 1
        (some { id := "s1", name := "Desk", hourly_rate := some 40,
                daily_rate := none, monthly_rate := none, is_active := true })
        "b1" true (some { link_id := "plink_1", link_url := "stripe.example/pay" })
        false).1).payments = [] := by
  have ht : truthyRate (some (40:ℚ)) = true := by simp [truthyRate]
  constructor
  · simp [create_booking_tool, check_space_availability, compute_total_amount, ht]
  · simp [create_booking_tool, check_space_availability, compute_total_amount, ht,
      create_booking_row]

/-- The fields of a Stripe event object the webhook handler reads
(`event["data"]["object"]` plus the event type). -/
structure StripeEvent where
  type : String
  meta_booking_id : Option String
  payment_intent : Option String
deriving DecidableEq, Repr

/-- Outcome of `stripe.Webhook.construct_event`: a `ValueError` for a malformed
payload, a `SignatureVerificationError`, or the verified event. -/
inductive ConstructEventOutcome
  | invalidPayload
  | invalidSignature
  | verified (e : StripeEvent)
deriving DecidableEq, Repr

/-- What the webhook endpoint sends back: an `HTTPException` with a status code,
or an HTTP 200 JSON body whose `status` field is recorded. -/
inductive WebhookReply
  | httpError (code : ℤ)
  | body (status : String)
deriving DecidableEq, Repr

/-- Booking-reference resolution for a completed checkout session (webhooks.py
lines 72-84): the session metadata first, else the metadata of the embedded
payment intent; `pi_retrieve pid = none` models the retrieve call raising (the
error is logged and the reference stays unresolved). -/
def resolve_booking_id (e : StripeEvent)
    (pi_retrieve : String → Option (Option String)) : Option String :=
  match e.meta_booking_id with
  | some b => some b
  | none =>
    match e.payment_intent with
    | none => none
    | some pid =>
      match pi_retrieve pid with
      | none => none
      | some m => m

/-- The `stripe_webhook` handler (webhooks.py lines 25-161).  `signature` is the
`Stripe-Signature` header; `construct` the signature-verification outcome;
`booking_update_ok` / `payment_update_ok` model whether the two Supabase updates
raise (their exceptions are caught, and a failure of the first skips the second).
Requires the Stripe SDK to be importable, as the source otherwise replies 503
before any of this runs. -/
def stripe_webhook (db : DB) (now : ℤ) (signature : Option String)
    (construct : ConstructEventOutcome)
    (pi_retrieve : String → Option (Option String))
    (booking_update_ok payment_update_ok : Bool) : WebhookReply × DB :=
  match signature with
  | none => (.httpError 400, db)
  | some _ =>
    match construct with
    | .invalidPayload => (.httpError 400, db)
    | .invalidSignature => (.httpError 400, db)
    | .verified e =>
      if e.type == "checkout.session.completed" then
        match resolve_booking_id e pi_retrieve with
        | some bid =>
          if booking_update_ok then
            let db1 := update_booking_status db bid "confirmed"
            if payment_update_ok then
              (.body "success",
               update_payment_status db1 bid "completed" e.payment_intent (some now) none)
            else (.body "success", db1)
          else (.body "success", db)
        | none => (.body "success", db)
      else if e.type == "payment_intent.succeeded" then
        match e.meta_booking_id with
        | some bid =>
          (.body "success",
           if booking_update_ok then update_booking_status db bid "confirmed" else db)
        | none => (.body "success", db)
      else if e.type == "payment_intent.payment_failed" then
        match e.meta_booking_id with
        | some bid =>
          (.body "failed",
           if payment_update_ok then
             update_payment_status db bid "failed" none none none
           else db)
        | none => (.body "failed", db)
      else if e.type == "customer.created" then (.body "success", db)
      else (.body "ignored", db)

/-- Claim C7: a missing signature header, a malformed payload, or a signature that
does not verify is rejected with a client-error 400 response before any
processing: the database is returned unchanged — no Booking and no Payment Record
mutation — and the handler answers with a response rather than an unhandled fault
(the model is a total function into replies). -/
theorem C7_invalid_signature_rejected (db : DB) (now : ℤ)
    (signature : Option String) (construct : ConstructEventOutcome)
    (pi_retrieve : String → Option (Option String)) (b1 b2 : Bool)
    (h : signature = none ∨ construct = .invalidPayload ∨
         construct = .invalidSignature) :
    stripe_webhook db now signature construct pi_retrieve b1 b2
      = (.httpError 400, db) := by
  rcases h with h | h | h
  · simp [stripe_webhook, h]
  · cases signature with
    | none => simp [stripe_webhook]
    | some s => simp [stripe_webhook, h]
  · cases signature with
    | none => simp [stripe_webhook]
    | some s => simp [stripe_webhook, h]

/-- Witness for C7: a concrete database and an event whose signature fails to
verify is rejected with 400 and no state change. -/
theorem C7_invalid_signature_rejected_witness :
    stripe_webhook
      { bookings := [
          { id := "b1", user_id := "u", space_id := "s1", start_time := 0,
            end_time := 100, duration_type := "hourly", status := "pending",
            total_amount := 10, attendees_count := 1 }],
        payments := [] } 5000 (some "t=1,v1=bad") .invalidSignature
      (fun _ => none) true true
      = (.httpError 400,
         { bookings := [
             { id := "b1", user_id := "u", space_id := "s1", start_time := 0,
               end_time := 100, duration_type := "hourly", status := "pending",
               total_amount := 10, attendees_count := 1 }],
           payments := [] }) :=
  C7_invalid_signature_rejected
    { bookings := [
        { id := "b1", user_id := "u", space_id := "s1", start_time := 0,
          end_time := 100, duration_type := "hourly", status := "pending",
          total_amount := 10, attendees_count := 1 }],
      payments := [] } 5000 (some "t=1,v1=bad") .invalidSignature
    (fun _ => none) true true (Or.inr (Or.inr rfl))

/-- Claim C10 (implicit): a signature-verified checkout-completion event that
resolves a booking reference is acknowledged with HTTP 200 and status `success`
even when the booking-status update raises — the error is caught, the provider is
told the event was processed, and when the update failed the database is
unchanged, so the confirmation is silently lost. -/
theorem C10_db_error_still_acknowledged (db : DB) (now : ℤ) (sig : String)
    (e : StripeEvent) (pi_retrieve : String → Option (Option String))
    (b2 : Bool) (bid : String)
    (htype : e.type = "checkout.session.completed")
    (hres : resolve_booking_id e pi_retrieve = some bid) :
    (∀ b1 : Bool,
      (stripe_webhook db now (some sig) (.verified e) pi_retrieve b1 b2).1
        = .body "success") ∧
    (stripe_webhook db now (some sig) (.verified e) pi_retrieve false b2).2 = db := by
  constructor
  · intro b1
    cases b1 <;> cases b2 <;> simp [stripe_webhook, htype, hres]
  · simp [stripe_webhook, htype, hres]

/-- Witness for C10: a concrete completed-checkout event whose booking update
fails is still answered with status success and leaves the database unchanged. -/
theorem C10_db_error_still_acknowledged_witness :
    (∀ b1 : Bool,
      (stripe_webhook
        { bookings := [
            { id := "b1", user_id := "u", space_id := "s1", start_time := 0,
              end_time := 100, duration_type := "hourly", status := "pending",
              total_amount := 10, attendees_count := 1 }],
          payments := [] } 5000 (some "t=1,v1=good")
        (.verified { type := "checkout.session.completed",
                     meta_booking_id := some "b1", payment_intent := some "pi_1" })
        (fun _ => none) b1 true).1 = .body "success") ∧
    (stripe_webhook
        { bookings := [
            { id := "b1", user_id := "u", space_id := "s1", start_time := 0,
              end_time := 100, duration_type := "hourly", status := "pending",
              total_amount := 10, attendees_count := 1 }],
          payments := [] } 5000 (some "t=1,v1=good")
        (.verified { type := "checkout.session.completed",
                     meta_booking_id := some "b1", payment_intent := some "pi_1" })
        (fun _ => none) false true).2
      = { bookings := [
            { id := "b1", user_id := "u", space_id := "s1", start_time := 0,
              end_time := 100, duration_type := "hourly", status := "pending",
              total_amount := 10, attendees_count := 1 }],
          payments := [] } :=
  C10_db_error_still_acknowledged
    { bookings := [
        { id := "b1", user_id := "u", space_id := "s1", start_time := 0,
          end_time := 100, duration_type := "hourly", status := "pending",
          total_amount := 10, attendees_count := 1 }],
      payments := [] } 5000 "t=1,v1=good"
    { type := "checkout.session.completed", meta_booking_id := some "b1",
      payment_intent := some "pi_1" } (fun _ => none) true "b1" rfl rfl

/-- A Stripe checkout session as read by the reconciliation endpoint. -/
structure StripeSession where
  payment_status : String
  payment_intent : Option String
deriving DecidableEq, Repr

/-- A Stripe payment intent as read by the reconciliation endpoint. -/
structure StripeIntent where
  id : String
  status : String
deriving DecidableEq, Repr

/-- The reconciliation endpoint's view of the payment provider:
`list_sessions` is the `checkout.Session.list(payment_link=...)` result (`none`
models the call raising, caught at bookings.py line 74); `retrieve_intent` the
`PaymentIntent.retrieve` result (`none` models it raising, caught at line 83);
`search_intents` the `PaymentIntent.search` result (`none` models it raising,
turned into a 502 at line 94). -/
structure StripeProvider where
  list_sessions : Option (List StripeSession)
  retrieve_intent : String → Option StripeIntent
  search_intents : Option (List StripeIntent)

/-- Result of `reconcile_booking_payment`: 404, idempotent short-circuit, 502 on
search failure, non-error still-pending, or confirmation with the matched
payment-intent reference. -/
inductive ReconcileResult
  | notFound
  | alreadyConfirmed
  | searchFailed
  | stillPending
  | confirmed (payment_intent_id : String)
deriving DecidableEq, Repr

/-- The confirmation step shared by both reconciliation branches (bookings.py
lines 101-109): booking to confirmed, payment record to completed with the
matched transaction reference and paid-at instant. -/
def apply_confirmation (db : DB) (booking_id : String) (now : ℤ)
    (intent : StripeIntent) (calls : ℕ) : ReconcileResult × DB × ℕ :=
  (.confirmed intent.id,
   update_payment_status (update_booking_status db booking_id "confirmed")
     booking_id "completed" (some intent.id) (some now) none,
   calls)

/-- The metadata-search fallback (bookings.py lines 87-99): one more provider
call; a raised search is a 502, an empty result a non-error still-pending reply,
and a succeeded intent is applied. -/
def reconcile_search (db : DB) (booking_id : String) (now : ℤ)
    (p : StripeProvider) (calls : ℕ) : ReconcileResult × DB × ℕ :=
  match p.search_intents with
  | none => (.searchFailed, db, calls + 1)
  | some results =>
    match results.find? (fun i => i.status == "succeeded") with
    | none => (.stillPending, db, calls + 1)
    | some intent => apply_confirmation db booking_id now intent (calls + 1)

/-- The payment-link session lookup (bookings.py lines 57-75): among the sessions
of the payment link, the first with `payment_status == "paid"` and a truthy
payment intent yields that intent id. -/
def lookup_paid_session_intent (list_sessions : Option (List StripeSession)) :
    Option String :=
  match list_sessions with
  | none => none
  | some sessions =>
    match sessions.find? (fun s =>
        s.payment_status == "paid" && s.payment_intent.isSome) with
    | none => none
    | some s => s.payment_intent

/-- `reconcile_booking_payment` (bookings.py lines 34-133): 404 when the booking
is unknown; immediate return when already confirmed; otherwise the payment-link
session lookup (when the payment record holds a link reference), then the intent
retrieve, then the metadata search fallback.  The third component counts
external-provider calls. -/
def reconcile_booking_payment (db : DB) (booking_id : String) (now : ℤ)
    (p : StripeProvider) : ReconcileResult × DB × ℕ :=
  match db.bookings.find? (fun b => b.id == booking_id) with
  | none => (.notFound, db, 0)
  | some booking =>
    if booking.status == "confirmed" then (.alreadyConfirmed, db, 0)
    else
      match (get_payment_by_booking db booking_id).bind
          (fun r => r.transaction_id) with
      | none => reconcile_search db booking_id now p 0
      | some _ =>
        match lookup_paid_session_intent p.list_sessions with
        | none => reconcile_search db booking_id now p 1
        | some pid =>
          match p.retrieve_intent pid with
          | some intent => apply_confirmation db booking_id now intent 2
          | none => reconcile_search db booking_id now p 2

/-- A payment success the provider actually attests: a paid checkout session with
a payment intent among the listed sessions, or a succeeded intent in the search
results. -/
def proven_success (p : StripeProvider) : Prop :=
  (∃ l, p.list_sessions = some l ∧
    ∃ s ∈ l, s.payment_status = "paid" ∧ s.payment_intent.isSome = true) ∨
  (∃ r, p.search_intents = some r ∧ ∃ i ∈ r, i.status = "succeeded")

/-- A successful payment-link session lookup attests a paid session with a
payment intent among the listed sessions. -/
theorem lookup_paid_session_intent_attests (ls : Option (List StripeSession))
    (pid : String) (h : lookup_paid_session_intent ls = some pid) :
    ∃ l, ls = some l ∧
      ∃ s ∈ l, s.payment_status = "paid" ∧ s.payment_intent.isSome = true := by
  unfold lookup_paid_session_intent at h
  split at h
  · cases h
  · rename_i sessions
    split at h
    · cases h
    · rename_i s hf
      have hp := List.find?_some hf
      simp only [Bool.and_eq_true, beq_iff_eq] at hp
      exact ⟨sessions, rfl, s, List.mem_of_find?_eq_some hf, hp.1, hp.2⟩

/-- The search fallback never reports still-pending after a write, and only
writes when the search results attest a succeeded intent. -/
theorem reconcile_search_writes (db : DB) (bid : String) (now : ℤ)
    (p : StripeProvider) (c : ℕ) :
    ((reconcile_search db bid now p c).1 = .stillPending →
      (reconcile_search db bid now p c).2.1 = db) ∧
    ((reconcile_search db bid now p c).2.1 ≠ db →
      ∃ r, p.search_intents = some r ∧ ∃ i ∈ r, i.status = "succeeded") := by
  unfold reconcile_search
  cases hs : p.search_intents with
  | none => simp
  | some results =>
    cases hf : results.find? (fun i => i.status == "succeeded") with
    | none => simp [hf]
    | some intent =>
      have hp := List.find?_some hf
      simp only [beq_iff_eq] at hp
      constructor
      · intro hcon
        simp [hf, apply_confirmation] at hcon
      · intro _
        exact ⟨results, rfl, intent, List.mem_of_find?_eq_some hf, hp⟩

/-- Claim C8: pull-path reconciliation (1) returns immediately with zero
provider calls and no writes when the booking is already confirmed; (2) reports
the non-error still-pending outcome, with no writes, when the session lookup
yields nothing and the search finds no succeeded intent; (3) whenever it reports
still-pending the database is unchanged; and (4) it writes only when the
provider attests a successful payment — it never fabricates a terminal state. -/
theorem C8_pull_reconciliation_safe (db : DB) (bid : String) (now : ℤ)
    (p : StripeProvider) :
    (∀ bk, db.bookings.find? (fun b => b.id == bid) = some bk →
      bk.status = "confirmed" →
      reconcile_booking_payment db bid now p = (.alreadyConfirmed, db, 0)) ∧
    (∀ bk r, db.bookings.find? (fun b => b.id == bid) = some bk →
      bk.status ≠ "confirmed" →
      lookup_paid_session_intent p.list_sessions = none →
      p.search_intents = some r →
      r.find? (fun i => i.status == "succeeded") = none →
      ∃ n, reconcile_booking_payment db bid now p = (.stillPending, db, n)) ∧
    ((reconcile_booking_payment db bid now p).1 = .stillPending →
      (reconcile_booking_payment db bid now p).2.1 = db) ∧
    ((reconcile_booking_payment db bid now p).2.1 ≠ db → proven_success p) := by
  refine ⟨?_, ?_, ?_, ?_⟩
  · intro bk hfind hst
    simp [reconcile_booking_payment, hfind, hst]
  · intro bk r hfind hst hsess hsearch hnone
    have hst' : (bk.status == "confirmed") = false := by simp [hst]
    cases hlink : (get_payment_by_booking db bid).bind (fun rec => rec.transaction_id) with
    | none =>
      refine ⟨1, ?_⟩
      simp [reconcile_booking_payment, hfind, hst', hlink,
        reconcile_search, hsearch, hnone]
    | some l =>
      refine ⟨2, ?_⟩
      simp [reconcile_booking_payment, hfind, hst', hlink, hsess,
        reconcile_search, hsearch, hnone]
  · cases hfind : db.bookings.find? (fun b => b.id == bid) with
    | none => simp [reconcile_booking_payment, hfind]
    | some bk =>
      by_cases hst : bk.status = "confirmed"
      · simp [reconcile_booking_payment, hfind, hst]
      · have hst' : (bk.status == "confirmed") = false := by simp [hst]
        cases hlink : (get_payment_by_booking db bid).bind
            (fun rec => rec.transaction_id) with
        | none =>
          simpa [reconcile_booking_payment, hfind, hst', hlink] using
            (reconcile_search_writes db bid now p 0).1
        | some l =>
          cases hsess : lookup_paid_session_intent p.list_sessions with
          | none =>
            simpa [reconcile_booking_payment, hfind, hst', hlink, hsess] using
              (reconcile_search_writes db bid now p 1).1
          | some pid =>
            cases hret : p.retrieve_intent pid with
            | none =>
              simpa [reconcile_booking_payment, hfind, hst', hlink, hsess, hret]
                using (reconcile_search_writes db bid now p 2).1
            | some intent =>
              intro hcon
              simp [reconcile_booking_payment, hfind, hst', hlink, hsess, hret,
                apply_confirmation] at hcon
  · cases hfind : db.bookings.find? (fun b => b.id == bid) with
    | none => simp [reconcile_booking_payment, hfind]
    | some bk =>
      by_cases hst : bk.status = "confirmed"
      · simp [reconcile_booking_payment, hfind, hst]
      · have hst' : (bk.status == "confirmed") = false := by simp [hst]
        cases hlink : (get_payment_by_booking db bid).bind
            (fun rec => rec.transaction_id) with
        | none =>
          intro hw
          refine Or.inr ?_
          exact (reconcile_search_writes db bid now p 0).2 (by
            simpa [reconcile_booking_payment, hfind, hst', hlink] using hw)
        | some l =>
          cases hsess : lookup_paid_session_intent p.list_sessions with
          | none =>
            intro hw
            refine Or.inr ?_
            exact (reconcile_search_writes db bid now p 1).2 (by
              simpa [reconcile_booking_payment, hfind, hst', hlink, hsess] using hw)
          | some pid =>
            cases hret : p.retrieve_intent pid with
            | none =>
              intro hw
              refine Or.inr ?_
              exact (reconcile_search_writes db bid now p 2).2 (by
                simpa [reconcile_booking_payment, hfind, hst', hlink, hsess, hret]
                  using hw)
            | some intent =>
              intro _
              exact Or.inl (lookup_paid_session_intent_attests p.list_sessions pid hsess)

/-- Witness for C8: reconciling an already-confirmed booking returns immediately,
with zero provider calls and an unchanged database. -/
theorem C8_pull_reconciliation_safe_witness :
    reconcile_booking_payment
      { bookings := [
          { id := "b1", user_id := "u", space_id := "s1", start_time := 0,
            end_time := 100, duration_type := "hourly", status := "confirmed",
            total_amount := 10, attendees_count := 1 }],
        payments := [] } "b1" 5000
      { list_sessions := some [], retrieve_intent := fun _ => none,
        search_intents := some [] }
      = (.alreadyConfirmed,
         { bookings := [
             { id := "b1", user_id := "u", space_id := "s1", start_time := 0,
               end_time := 100, duration_type := "hourly", status := "confirmed",
               total_amount := 10, attendees_count := 1 }],
           payments := [] }, 0) :=
  (C8_pull_reconciliation_safe
    { bookings := [
        { id := "b1", user_id := "u", space_id := "s1", start_time := 0,
          end_time := 100, duration_type := "hourly", status := "confirmed",
          total_amount := 10, attendees_count := 1 }],
      payments := [] } "b1" 5000
    { list_sessions := some [], retrieve_intent := fun _ => none,
      search_intents := some [] }).1
    { id := "b1", user_id := "u", space_id := "s1", start_time := 0,
      end_time := 100, duration_type := "hourly", status := "confirmed",
      total_amount := 10, attendees_count := 1 } (by decide) rfl
